import Mathlib

/-!
Verification of the Entity Store pattern of the NotionK4S repository.

Shallow embedding: each store operation from the TypeScript sources is
translated to a pure Lean function.  Asynchronous gateway calls are made
explicit by passing the outcome of the call (an Except value: ok data or a
raised/returned error) as an argument; Zustand state updates become explicit
state-passing.  JS null/undefined on optional string fields is modelled as
Option String (none).
-/

set_option autoImplicit false

namespace NotionK4S

/-! ### Chat store — src/src/store/chatStore.ts -/

/-- Cache record for one chat message (fields used by the verified claims). -/
structure ChatMessage where
  id : String
  content : String
deriving DecidableEq

/-- Embedding of addMessage (chatStore.ts lines 208-216): if a cached message
already has the incoming id, the state is returned unchanged; otherwise the
message is appended. -/
def addMessage (messages : List ChatMessage) (message : ChatMessage) : List ChatMessage :=
  if messages.any fun m => m.id == message.id then messages
  else messages ++ [message]

/-- Cache record for one chat channel. -/
structure ChatChannel where
  id : String
  name : String
  description : Option String
  type : String
deriving DecidableEq

/-- Embedding of the connected branch of createChannel (chatStore.ts lines
181-198): on gateway success the inserted row is appended at the tail of the
channels cache; on a gateway error (returned or thrown) the cache is
unchanged and the error message is returned. -/
def createChannelConnected (outcome : Except String ChatChannel)
    (channels : List ChatChannel) : Option String × List ChatChannel :=
  match outcome with
  | .error m => (some m, channels)
  | .ok data => (none, channels ++ [data])

/-- Embedding of the demo branch of createChannel (chatStore.ts lines
177-179): it returns success without touching the cache at all. -/
def createChannelDemo (channels : List ChatChannel) : Option String × List ChatChannel :=
  (none, channels)

/-- Message-partition state touched by fetchMessages. -/
structure ChatMessagesState where
  messages : List ChatMessage
  isLoadingMessages : Bool
deriving DecidableEq

/-- Embedding of the connected branch of fetchMessages (chatStore.ts lines
84-101).  The outcome argument is the gateway read: ok (some rows), ok none
for a null data payload, or error for a returned-then-thrown or network
error (both land in the catch block). -/
def fetchMessagesStep (st : ChatMessagesState)
    (outcome : Except String (Option (List ChatMessage))) : ChatMessagesState :=
  match outcome with
  | .ok data => { messages := data.getD [], isLoadingMessages := false }
  | .error _ => { st with isLoadingMessages := false }

/-- Embedding of removeChannel: drops the channel with the given topic from
the set of live realtime channels. -/
def removeChannel (live : List String) (topic : String) : List String :=
  live.filter fun c => c ≠ topic

/-- Embedding of the teardown closure returned by subscribeToMessages
(chatStore.ts lines 269-273).  lastStatus is the most recent status the
subscribe callback reported (none when the handshake callback never fired);
isSubscribed is true exactly when that status was SUBSCRIBED.  The closure
calls removeChannel only when isSubscribed is true. -/
def subscribeTeardown (lastStatus : Option String) (live : List String)
    (topic : String) : List String :=
  let isSubscribed :=
    match lastStatus with
    | some s => s == "SUBSCRIBED"
    | none => false
  if isSubscribed then removeChannel live topic else live

/-! ### Notes/tasks store — src/unnamed/part_000 (useNotesStore) -/

/-- Cache record for one note/task (fields referenced by the claims; the
tags and timestamp fields are carried by the gateway rows and never
inspected by the verified operations, so they are omitted). -/
structure Note where
  id : String
  title : String
  content : String
  type : String
  status : String
  priority : String
  assigned_to : Option String
  parent_id : Option String
  project : Option String
  created_by : String
deriving DecidableEq

/-- Caller-supplied Partial of a Note: none means the field is absent from
the partial object; some s means present with string value s (possibly empty). -/
structure NotePartial where
  title : Option String := none
  content : Option String := none
  type : Option String := none
  status : Option String := none
  priority : Option String := none
  assigned_to : Option String := none
  parent_id : Option String := none
  project : Option String := none
  created_by : Option String := none
deriving DecidableEq

/-- JS expression v || null on an optional string field: the empty string and
undefined both collapse to null. -/
def jsOrNull (v : Option String) : Option String :=
  match v with
  | some s => if s = "" then none else some s
  | none => none

/-- The cleaned insert payload built by the connected branch of createNote
(part_000 lines 92-98): the three relational fields are always present, as
null or a string. -/
structure CleanedCreate where
  title : Option String
  content : Option String
  type : Option String
  status : Option String
  priority : Option String
  assigned_to : Option String
  parent_id : Option String
  project : Option String
  created_by : Option String
deriving DecidableEq

/-- Embedding of the cleanedNote construction of createNote. -/
def cleanCreate (note : NotePartial) : CleanedCreate :=
  { title := note.title
    content := note.content
    type := note.type
    status := note.status
    priority := note.priority
    assigned_to := jsOrNull note.assigned_to
    parent_id := jsOrNull note.parent_id
    project := jsOrNull note.project
    created_by := note.created_by }

/-- Recipients of the notification requested by createNote (part_000 lines
109-119): one notification to the assignee when cleanedNote.assigned_to is
truthy (a non-empty string) and differs from cleanedNote.created_by. -/
def createNotifRecipients (c : CleanedCreate) : List String :=
  match c.assigned_to with
  | some s => if s ≠ "" ∧ c.created_by ≠ some s then [s] else []
  | none => []

/-- Modelled from the spec: createNotification lives in src/lib/supabase,
which is not under src/.  Spec section 7: notification-emission errors are
logged and absorbed unconditionally and never propagated, and section 4.3
says the call never fails the triggering mutation — so the call returns a
status value instead of raising; the argument is that returned status. -/
def createNotification (outcome : Except String Unit) : Except String Unit :=
  outcome

/-- Embedding of the connected branch of createNote (part_000 lines 91-125).
insertOutcome is the gateway insert; notifResult is the value the awaited
createNotification call settles to (its value is dropped by the source).
Returns (error field of the result, new cache, notification recipients). -/
def createNoteConnected (note : NotePartial) (cache : List Note)
    (insertOutcome : Except String Note) (notifResult : Except String Unit) :
    Option String × List Note × List String :=
  let c := cleanCreate note
  match insertOutcome with
  | .error m => (some m, cache, [])
  | .ok data =>
      let recipients := createNotifRecipients c
      let _ := createNotification notifResult
      (none, data :: cache, recipients)

/-- The demo-mode note built by createNote (part_000 lines 74-86); assigned_to
and parent_id are not set by that object literal. -/
def mkDemoNote (note : NotePartial) (genId : String) : Note :=
  { id := genId
    title := (jsOrNull note.title).getD ""
    content := (jsOrNull note.content).getD ""
    type := (jsOrNull note.type).getD "note"
    status := (jsOrNull note.status).getD "pending"
    priority := (jsOrNull note.priority).getD "medium"
    assigned_to := none
    parent_id := none
    project := note.project
    created_by := (jsOrNull note.created_by).getD "demo-user" }

/-- Embedding of the demo branch of createNote (part_000 lines 73-89):
prepends the locally built note and returns success. -/
def createNoteDemo (note : NotePartial) (genId : String) (cache : List Note) :
    Option String × List Note :=
  (none, mkDemoNote note genId :: cache)

/-- The cleaned update payload built by updateNote (part_000 lines 144-158).
For the three relational fields, outer none = field absent from the payload,
some none = explicit null, some (some s) = string value s. -/
structure CleanedUpdate where
  title : Option String
  content : Option String
  type : Option String
  status : Option String
  priority : Option String
  assigned_to : Option (Option String)
  parent_id : Option (Option String)
  project : Option (Option String)
deriving DecidableEq

/-- Cleaning applied only when the field is present in updates. -/
def cleanPresent (v : Option String) : Option (Option String) :=
  match v with
  | some s => some (if s = "" then none else some s)
  | none => none

/-- Embedding of the cleanedUpdates construction of updateNote. -/
def cleanUpdate (updates : NotePartial) : CleanedUpdate :=
  { title := updates.title
    content := updates.content
    type := updates.type
    status := updates.status
    priority := updates.priority
    assigned_to := cleanPresent updates.assigned_to
    parent_id := cleanPresent updates.parent_id
    project := cleanPresent updates.project }

/-- Recipients of the notification requested by updateNote (part_000 lines
177-188): one notification to the new assignee when cleanedUpdates.assigned_to
is truthy (a non-empty string) and differs from the pre-update record's
assigned_to (undefined when that read returned no row). -/
def updateNotifRecipients (cu : CleanedUpdate) (currentAssigned : Option String) :
    List String :=
  match cu.assigned_to with
  | some (some s) => if s ≠ "" ∧ currentAssigned ≠ some s then [s] else []
  | some none => []
  | none => []

/-- Embedding of the connected branch of updateNote (part_000 lines 142-197).
The pre-update record is read first (currentNote, none when the point read
found nothing); updateOutcome is the gateway update; notifResult is the value
the awaited createNotification call settles to (dropped by the source).
Returns (error field, new cache, new selectedNote, notification recipients). -/
def updateNoteConnected (id : String) (updates : NotePartial)
    (currentNote : Option Note) (updateOutcome : Except String Note)
    (notifResult : Except String Unit) (cache : List Note)
    (selected : Option Note) :
    Option String × List Note × Option Note × List String :=
  let cu := cleanUpdate updates
  let currentAssigned := currentNote.bind fun n => n.assigned_to
  match updateOutcome with
  | .error m => (some m, cache, selected, [])
  | .ok data =>
      let recipients := updateNotifRecipients cu currentAssigned
      let _ := createNotification notifResult
      (none,
       cache.map fun n => if n.id = id then data else n,
       (match selected with
        | some sn => if sn.id = id then some data else some sn
        | none => none),
       recipients)

/-- Embedding of the demo branch of deleteNote (part_000 lines 202-208). -/
def deleteNoteDemo (id : String) (cache : List Note) (selected : Option Note) :
    Option String × List Note × Option Note :=
  (none,
   cache.filter fun n => n.id ≠ id,
   match selected with
   | some sn => if sn.id = id then none else some sn
   | none => none)

/-- Embedding of the connected branch of deleteNote (part_000 lines 210-220):
outcome is the gateway delete (which succeeds also when no row matches). -/
def deleteNoteConnected (id : String) (outcome : Except String Unit)
    (cache : List Note) (selected : Option Note) :
    Option String × List Note × Option Note :=
  match outcome with
  | .error m => (some m, cache, selected)
  | .ok _ =>
      (none,
       cache.filter fun n => n.id ≠ id,
       match selected with
       | some sn => if sn.id = id then none else some sn
       | none => none)

/-- Notes-partition state touched by fetchNotes. -/
structure NotesFetchState where
  notes : List Note
  isLoading : Bool
deriving DecidableEq

/-- Embedding of the connected branch of fetchNotes (part_000 lines 48-68):
on success the cache is replaced by the returned rows (empty for a null
payload); a returned-then-thrown or network error is caught and only clears
the loading flag. -/
def fetchNotesStep (st : NotesFetchState)
    (outcome : Except String (Option (List Note))) : NotesFetchState :=
  match outcome with
  | .ok data => { notes := data.getD [], isLoading := false }
  | .error _ => { st with isLoading := false }

/-! ### Personal notes store — src/src/store/personalNotesStore.ts -/

/-- Cache record for one personal note (fields used by the claims). -/
structure PersonalNote where
  id : String
  title : String
  content : String
  owner_id : String
deriving DecidableEq

/-- Embedding of the demo branch of the personal-notes createNote
(personalNotesStore.ts lines 61-73): prepends the locally built note and
returns it next to the success status. -/
def personalCreateDemo (title content : String) (genId : String)
    (notes : List PersonalNote) :
    Option String × Option PersonalNote × List PersonalNote :=
  let newNote : PersonalNote :=
    { id := genId, title := title, content := content, owner_id := "demo-user" }
  (none, some newNote, newNote :: notes)

/-- Embedding of the connected branch of the personal-notes createNote
(personalNotesStore.ts lines 75-88): on gateway success the inserted row is
prepended and returned. -/
def personalCreateConnected (outcome : Except String PersonalNote)
    (notes : List PersonalNote) :
    Option String × Option PersonalNote × List PersonalNote :=
  match outcome with
  | .error m => (some m, none, notes)
  | .ok data => (none, some data, data :: notes)

/-- Embedding of the demo branch of the personal-notes deleteNote
(personalNotesStore.ts lines 127-131). -/
def personalDeleteDemo (id : String) (notes : List PersonalNote) :
    Option String × List PersonalNote :=
  (none, notes.filter fun n => n.id ≠ id)

/-- Embedding of the connected branch of the personal-notes deleteNote
(personalNotesStore.ts lines 134-147). -/
def personalDeleteConnected (id : String) (outcome : Except String Unit)
    (notes : List PersonalNote) : Option String × List PersonalNote :=
  match outcome with
  | .error m => (some m, notes)
  | .ok _ => (none, notes.filter fun n => n.id ≠ id)

/-- One row of the personal_note_shares table joined with the shared-with
profile (fields used by the claims). -/
structure PersonalNoteShare where
  id : String
  note_id : String
  shared_with : String
  can_edit : Bool
deriving DecidableEq

/-- Embedding of getShares (personalNotesStore.ts lines 246-261).  configured
is the isSupabaseConfigured check; outcome is the gateway read: error for a
rejected call (caught), ok none for a null data payload, ok (some rows)
otherwise.  As a total Lean function it never raises. -/
def getShares (configured : Bool)
    (outcome : Except String (Option (List PersonalNoteShare))) :
    List PersonalNoteShare :=
  if configured then
    match outcome with
    | .ok data => data.getD []
    | .error _ => []
  else []

/-! ### Expenses page filter — src/src/pages/Expenses.tsx -/

/-- Calendar date, standing for the date-fns Date values used by the filter. -/
structure SimpleDate where
  year : Nat
  month : Nat
  day : Nat
deriving DecidableEq

/-- Calendar order on dates (year, then month, then day). -/
def dateLe (a b : SimpleDate) : Bool :=
  decide (a.year < b.year ∨
    (a.year = b.year ∧ (a.month < b.month ∨ (a.month = b.month ∧ a.day ≤ b.day))))

/-- Embedding of date-fns startOfMonth. -/
def startOfMonth (d : SimpleDate) : SimpleDate :=
  { year := d.year, month := d.month, day := 1 }

/-- Embedding of date-fns endOfMonth: the last day of d's month; 31 is an
upper bound that classifies every valid calendar day (day at most 31)
exactly as the real last day does under the calendar order. -/
def endOfMonth (d : SimpleDate) : SimpleDate :=
  { year := d.year, month := d.month, day := 31 }

/-- Embedding of date-fns isWithinInterval. -/
def isWithinInterval (d lo hi : SimpleDate) : Bool :=
  dateLe lo d && dateLe d hi

/-- Leading-segment test: the first list read off at the head of the second. -/
def leadMatch : List Char → List Char → Bool
  | [], _ => true
  | _ :: _, [] => false
  | a :: as, b :: bs => a == b && leadMatch as bs

/-- Occurrence of sub at some position of s. -/
def strIncludesAux (sub : List Char) : List Char → Bool
  | [] => leadMatch sub []
  | c :: cs => leadMatch sub (c :: cs) || strIncludesAux sub cs

/-- JS String.prototype.includes: substring test. -/
def strIncludes (s sub : String) : Bool :=
  strIncludesAux sub.toList s.toList

/-- The three values of the dateFilter state of the Expenses page. -/
inductive DateFilterKind
  | all
  | month
  | custom
deriving DecidableEq

/-- Cache record for one expense (fields used by the filter). -/
structure Expense where
  id : String
  description : String
  vendor : Option String
  category_id : Option String
  status : String
  expense_date : SimpleDate
  amount : Nat
deriving DecidableEq

/-- The filter state read by filteredExpenses. -/
structure ExpenseFilter where
  searchTerm : String
  categoryFilter : Option String
  statusFilter : Option String
  dateFilter : DateFilterKind
deriving DecidableEq

/-- Embedding of the predicate of filteredExpenses (Expenses.tsx lines
133-160).  now is the value of new Date() observed during the evaluation:
with dateFilter month the code keeps the expenses of the current month. -/
def expenseKeep (f : ExpenseFilter) (now : SimpleDate) (e : Expense) : Bool :=
  (if f.searchTerm ≠ "" then
    (strIncludes e.description.toLower f.searchTerm.toLower ||
      (match e.vendor with
       | some v => strIncludes v.toLower f.searchTerm.toLower
       | none => false))
   else true) &&
  (match jsOrNull f.categoryFilter with
   | some c => e.category_id == some c
   | none => true) &&
  (match jsOrNull f.statusFilter with
   | some s => e.status == s
   | none => true) &&
  (match f.dateFilter with
   | .month => isWithinInterval e.expense_date (startOfMonth now) (endOfMonth now)
   | _ => true)

/-- Embedding of filteredExpenses (Expenses.tsx lines 133-160). -/
def filteredExpenses (expenses : List Expense) (f : ExpenseFilter)
    (now : SimpleDate) : List Expense :=
  expenses.filter (expenseKeep f now)

/-! ### Global search — src/src/components/GlobalSearch.tsx -/

/-- Cache record for one meeting (fields used by performSearch). -/
structure Meeting where
  id : String
  title : String
  description : Option String
  status : String
deriving DecidableEq

/-- Cache record for one team member (fields used by performSearch). -/
structure Member where
  id : String
  full_name : Option String
  email : String
deriving DecidableEq

/-- One entry of the search-results list. -/
structure SearchResult where
  id : String
  title : String
  subtitle : String
  type : String
  path : String
deriving DecidableEq

/-- The subtitle label picked for a note result by its type. -/
def noteKindLabel (t : String) : String :=
  if t = "task" then "Tarea"
  else if t = "bug" then "Bug"
  else if t = "feature" then "Feature"
  else "Nota"

/-- The status half of a meeting result's subtitle. -/
def meetingStatusLabel (s : String) : String :=
  if s = "scheduled" then "Programada"
  else if s = "in_progress" then "En curso"
  else "Finalizada"

/-- JS v?.toLowerCase().includes(q) on an optional string. -/
def optIncludes (v : Option String) (q : String) : Bool :=
  match v with
  | some s => strIncludes s.toLower q
  | none => false

/-- Embedding of performSearch (GlobalSearch.tsx lines 72-137): a blank
(whitespace-only) query yields no results; otherwise matching notes,
personal notes, meetings and members are collected in that order and the
list is cut to the first 10 entries. -/
def performSearch (notes : List Note) (personalNotes : List PersonalNote)
    (meetings : List Meeting) (members : List Member) (query : String) :
    List SearchResult :=
  if query.trim = "" then []
  else
    let q := query.toLower
    let noteResults := notes.filterMap fun n =>
      if strIncludes n.title.toLower q || strIncludes n.content.toLower q then
        some { id := n.id, title := n.title, subtitle := noteKindLabel n.type,
               type := n.type, path := "/notes/" ++ n.id }
      else none
    let personalResults := personalNotes.filterMap fun n =>
      if strIncludes n.title.toLower q || strIncludes n.content.toLower q then
        some { id := n.id, title := n.title, subtitle := "Notepad Personal",
               type := "notepad", path := "/notepad" }
      else none
    let meetingResults := meetings.filterMap fun m =>
      if strIncludes m.title.toLower q || optIncludes m.description q then
        some { id := m.id, title := m.title,
               subtitle := "Reunión - " ++ meetingStatusLabel m.status,
               type := "meeting", path := "/meetings" }
      else none
    let memberResults := members.filterMap fun m =>
      if optIncludes m.full_name q || strIncludes m.email.toLower q then
        some { id := m.id, title := (jsOrNull m.full_name).getD m.email,
               subtitle := m.email, type := "user", path := "/team" }
      else none
    (noteResults ++ personalResults ++ meetingResults ++ memberResults).take 10

/-! ### Helper lemmas -/

/-- Normalization never submits the literal empty string. -/
theorem jsOrNull_ne_some_empty (v : Option String) : jsOrNull v ≠ some "" := by
  cases v with
  | none => simp [jsOrNull]
  | some s =>
      by_cases h : s = "" <;> simp [jsOrNull, h]

/-- Blank inputs (empty string or absent) normalize to the absent marker. -/
theorem jsOrNull_blank (v : Option String) (h : v = some "" ∨ v = none) :
    jsOrNull v = none := by
  rcases h with h | h <;> simp [jsOrNull, h]

/-- Update-side normalization never submits the literal empty string. -/
theorem cleanPresent_ne_some_empty (v : Option String) :
    cleanPresent v ≠ some (some "") := by
  cases v with
  | none => simp [cleanPresent]
  | some s =>
      by_cases h : s = "" <;> simp [cleanPresent, h]

/-! ### Claim theorems -/

/-- C1: the reconciler merge addMessage leaves the cache unchanged when an
entry with the incoming identifier is already cached, delivering the same
insertion twice equals delivering it once, and merges preserve uniqueness of
identifiers in the cache (first-writer-wins). -/
theorem addMessage_first_writer_wins (msgs : List ChatMessage) (m : ChatMessage) :
    ((∃ m' ∈ msgs, m'.id = m.id) → addMessage msgs m = msgs) ∧
    addMessage (addMessage msgs m) m = addMessage msgs m ∧
    ((msgs.map ChatMessage.id).Nodup → ((addMessage msgs m).map ChatMessage.id).Nodup) := by
  have key : ∀ l : List ChatMessage,
      addMessage l m = if l.any fun x => x.id == m.id then l else l ++ [m] :=
    fun l => rfl
  by_cases h : (msgs.any fun x => x.id == m.id) = true
  · refine ⟨fun _ => ?_, ?_, fun hn => ?_⟩
    · rw [key, if_pos h]
    · rw [key msgs, if_pos h, key, if_pos h]
    · rw [key, if_pos h]
      exact hn
  · have hb : (msgs.any fun x => x.id == m.id) = false := by
      simpa using h
    have hnot : ∀ x ∈ msgs, x.id ≠ m.id := by
      intro x hx
      have := List.any_eq_false.mp hb x hx
      simpa using this
    have h1 : addMessage msgs m = msgs ++ [m] := by
      rw [key, if_neg h]
    refine ⟨fun hex => ?_, ?_, fun hn => ?_⟩
    · obtain ⟨m', hm', hid⟩ := hex
      exact absurd hid (hnot m' hm')
    · rw [h1, key]
      have hany : ((msgs ++ [m]).any fun x => x.id == m.id) = true := by
        simp
      rw [if_pos hany]
    · rw [h1]
      have hmem : m.id ∉ msgs.map ChatMessage.id := by
        simp only [List.mem_map, not_exists, not_and]
        intro x hx
        exact fun hxm => hnot x hx hxm
      simp [List.nodup_append, hn, hmem]

/-- C1 witness: a duplicate-id redelivery is dropped on a concrete cache, and
a fresh-id merge keeps identifiers unique. -/
theorem addMessage_first_writer_wins_witness :
    addMessage [(⟨"m1", "hello"⟩ : ChatMessage)] ⟨"m1", "dup"⟩ = [⟨"m1", "hello"⟩] ∧
    ((addMessage [(⟨"m1", "hello"⟩ : ChatMessage)] ⟨"m2", "x"⟩).map ChatMessage.id).Nodup :=
  ⟨(addMessage_first_writer_wins [⟨"m1", "hello"⟩] ⟨"m1", "dup"⟩).1
      ⟨⟨"m1", "hello"⟩, by simp, rfl⟩,
   (addMessage_first_writer_wins [⟨"m1", "hello"⟩] ⟨"m2", "x"⟩).2.2 (by decide)⟩

/-- C2: connected-mode updateNote, which takes the pre-update record read
before the write, emits exactly one notification addressed to the new
assignee when the update sets assigned_to to a non-empty value different
from the stored one, none when the update omits the assignment field, and
none when the new value equals the stored one. -/
theorem updateNote_notifies_on_assignment_change (id : String) (updates : NotePartial)
    (currentNote : Option Note) (data : Note) (r : Except String Unit)
    (cache : List Note) (selected : Option Note) :
    (∀ s, updates.assigned_to = some s → s ≠ "" →
      (currentNote.bind fun n => n.assigned_to) ≠ some s →
      (updateNoteConnected id updates currentNote (.ok data) r cache selected).2.2.2 = [s]) ∧
    (updates.assigned_to = none →
      (updateNoteConnected id updates currentNote (.ok data) r cache selected).2.2.2 = []) ∧
    (∀ s, updates.assigned_to = some s →
      (currentNote.bind fun n => n.assigned_to) = some s →
      (updateNoteConnected id updates currentNote (.ok data) r cache selected).2.2.2 = []) := by
  have hrec : (updateNoteConnected id updates currentNote (.ok data) r cache selected).2.2.2
      = updateNotifRecipients (cleanUpdate updates)
          (currentNote.bind fun n => n.assigned_to) := rfl
  refine ⟨fun s hs hne hcur => ?_, fun hs => ?_, fun s hs hcur => ?_⟩
  · rw [hrec]
    simp [updateNotifRecipients, cleanUpdate, cleanPresent, hs, hne, hcur]
  · rw [hrec]
    simp [updateNotifRecipients, cleanUpdate, cleanPresent, hs]
  · rw [hrec]
    by_cases he : s = ""
    · simp [updateNotifRecipients, cleanUpdate, cleanPresent, hs, he]
    · simp [updateNotifRecipients, cleanUpdate, cleanPresent, hs, he, hcur]

/-- C2 witness: reassigning a concrete task from bob to carol notifies
exactly carol; editing only the content field notifies nobody. -/
theorem updateNote_notifies_witness :
    (updateNoteConnected "n1" { assigned_to := some "carol" }
      (some ⟨"n1", "t", "", "task", "pending", "medium", some "bob", none, none, "alice"⟩)
      (.ok ⟨"n1", "t", "", "task", "pending", "medium", some "carol", none, none, "alice"⟩)
      (.ok ()) [] none).2.2.2 = ["carol"] ∧
    (updateNoteConnected "n1" { content := some "new text" }
      (some ⟨"n1", "t", "", "task", "pending", "medium", some "bob", none, none, "alice"⟩)
      (.ok ⟨"n1", "t", "new text", "task", "pending", "medium", some "bob", none, none, "alice"⟩)
      (.ok ()) [] none).2.2.2 = [] :=
  ⟨(updateNote_notifies_on_assignment_change "n1" _ _ _ _ _ _).1 "carol" rfl
      (by decide) (by decide),
   (updateNote_notifies_on_assignment_change "n1" _ _ _ _ _ _).2.1 rfl⟩

/-- C3: when the entity mutation succeeds at the gateway, the outcome of the
notification call never reaches the operation result: createNote and
updateNote return error = none whatever the notification call settles to,
and the whole result is independent of that outcome. -/
theorem notification_error_not_propagated (note : NotePartial) (cache : List Note)
    (data : Note) (e : String) (id : String) (updates : NotePartial)
    (currentNote : Option Note) (selected : Option Note) :
    (createNoteConnected note cache (.ok data) (.error e)).1 = none ∧
    createNoteConnected note cache (.ok data) (.error e) =
      createNoteConnected note cache (.ok data) (.ok ()) ∧
    (updateNoteConnected id updates currentNote (.ok data) (.error e) cache selected).1 = none ∧
    updateNoteConnected id updates currentNote (.ok data) (.error e) cache selected =
      updateNoteConnected id updates currentNote (.ok data) (.ok ()) cache selected :=
  ⟨rfl, rfl, rfl, rfl⟩

/-- C4: a failed gateway read in connected mode leaves the cached entity list
exactly as it was and clears the loading flag, for the notes store and the
chat-messages store. -/
theorem fetch_error_leaves_cache (st : NotesFetchState) (stm : ChatMessagesState)
    (e em : String) :
    (fetchNotesStep st (.error e)).notes = st.notes ∧
    (fetchNotesStep st (.error e)).isLoading = false ∧
    (fetchMessagesStep stm (.error em)).messages = stm.messages ∧
    (fetchMessagesStep stm (.error em)).isLoadingMessages = false :=
  ⟨rfl, rfl, rfl, rfl⟩

/-- C5: optional relational fields left blank by the caller are submitted as
the explicit absent marker, never the literal empty string — for createNote
always, and for updateNote whenever the field is included in the update. -/
theorem blank_fields_normalized_to_null (note updates : NotePartial) :
    ((cleanCreate note).assigned_to ≠ some "" ∧ (cleanCreate note).parent_id ≠ some "" ∧
      (cleanCreate note).project ≠ some "") ∧
    (note.assigned_to = some "" ∨ note.assigned_to = none →
      (cleanCreate note).assigned_to = none) ∧
    (note.parent_id = some "" ∨ note.parent_id = none →
      (cleanCreate note).parent_id = none) ∧
    (note.project = some "" ∨ note.project = none →
      (cleanCreate note).project = none) ∧
    ((cleanUpdate updates).assigned_to ≠ some (some "") ∧
      (cleanUpdate updates).parent_id ≠ some (some "") ∧
      (cleanUpdate updates).project ≠ some (some "")) ∧
    (updates.assigned_to = some "" → (cleanUpdate updates).assigned_to = some none) ∧
    (updates.parent_id = some "" → (cleanUpdate updates).parent_id = some none) ∧
    (updates.project = some "" → (cleanUpdate updates).project = some none) := by
  refine ⟨⟨jsOrNull_ne_some_empty _, jsOrNull_ne_some_empty _, jsOrNull_ne_some_empty _⟩,
    fun h => jsOrNull_blank _ h, fun h => jsOrNull_blank _ h, fun h => jsOrNull_blank _ h,
    ⟨cleanPresent_ne_some_empty _, cleanPresent_ne_some_empty _, cleanPresent_ne_some_empty _⟩,
    fun h => ?_, fun h => ?_, fun h => ?_⟩ <;>
  simp [cleanUpdate, cleanPresent, h]

/-- C5 witness: a blank assignee on create and a blank parent reference on
update are submitted as the absent marker. -/
theorem blank_fields_normalized_witness :
    (cleanCreate { assigned_to := some "" }).assigned_to = none ∧
    (cleanUpdate { parent_id := some "" }).parent_id = some none :=
  ⟨(blank_fields_normalized_to_null { assigned_to := some "" } {}).2.1 (Or.inl rfl),
   (blank_fields_normalized_to_null {} { parent_id := some "" }).2.2.2.2.2.2.1 rfl⟩

/-- C6: delete returns success and removes exactly the cached entries whose
identifier equals the argument, clearing the selected-entity reference
exactly when it pointed at that identifier; for an identifier absent from
the cache the cache is left unchanged — in demo mode and in connected mode
with the gateway delete succeeding (it matches no row for an absent id), for
the notes store and the personal-notes store. -/
theorem delete_removes_exactly_id (id : String) (cache : List Note)
    (selected : Option Note) (pnotes : List PersonalNote) :
    (deleteNoteDemo id cache selected).1 = none ∧
    deleteNoteConnected id (.ok ()) cache selected = deleteNoteDemo id cache selected ∧
    (∀ n, n ∈ (deleteNoteDemo id cache selected).2.1 ↔ n ∈ cache ∧ n.id ≠ id) ∧
    (id ∉ cache.map Note.id → (deleteNoteDemo id cache selected).2.1 = cache) ∧
    (∀ sn, selected = some sn →
      (deleteNoteDemo id cache selected).2.2 = if sn.id = id then none else some sn) ∧
    (selected = none → (deleteNoteDemo id cache selected).2.2 = none) ∧
    (personalDeleteDemo id pnotes).1 = none ∧
    personalDeleteConnected id (.ok ()) pnotes = personalDeleteDemo id pnotes ∧
    (∀ n, n ∈ (personalDeleteDemo id pnotes).2 ↔ n ∈ pnotes ∧ n.id ≠ id) ∧
    (id ∉ pnotes.map PersonalNote.id → (personalDeleteDemo id pnotes).2 = pnotes) := by
  refine ⟨rfl, rfl, fun n => ?_, fun h => ?_, fun sn hs => ?_, fun hs => ?_, rfl, rfl,
    fun n => ?_, fun h => ?_⟩
  · simp [deleteNoteDemo]
  · apply List.filter_eq_self.mpr
    intro a ha
    simp only [decide_eq_true_eq]
    exact fun heq => h (heq ▸ List.mem_map_of_mem Note.id ha)
  · subst hs
    rfl
  · subst hs
    rfl
  · simp [personalDeleteDemo]
  · apply List.filter_eq_self.mpr
    intro a ha
    simp only [decide_eq_true_eq]
    exact fun heq => h (heq ▸ List.mem_map_of_mem PersonalNote.id ha)

/-- C6 witness: deleting a missing id from a concrete one-note cache returns
success, leaves the cache unchanged, and keeps the selected note. -/
theorem delete_removes_exactly_id_witness :
    (deleteNoteDemo "missing-id"
      [(⟨"n1", "t", "", "note", "pending", "medium", none, none, none, "alice"⟩ : Note)]
      (some ⟨"n1", "t", "", "note", "pending", "medium", none, none, none, "alice"⟩)).2.1 =
      [(⟨"n1", "t", "", "note", "pending", "medium", none, none, none, "alice"⟩ : Note)] ∧
    (deleteNoteDemo "missing-id"
      [(⟨"n1", "t", "", "note", "pending", "medium", none, none, none, "alice"⟩ : Note)]
      (some ⟨"n1", "t", "", "note", "pending", "medium", none, none, none, "alice"⟩)).2.2 =
      some ⟨"n1", "t", "", "note", "pending", "medium", none, none, none, "alice"⟩ := by
  constructor
  · exact (delete_removes_exactly_id "missing-id" _ _ []).2.2.2.1 (by decide)
  · have h := (delete_removes_exactly_id "missing-id"
      [(⟨"n1", "t", "", "note", "pending", "medium", none, none, none, "alice"⟩ : Note)]
      (some ⟨"n1", "t", "", "note", "pending", "medium", none, none, none, "alice"⟩)
      []).2.2.2.2.1 ⟨"n1", "t", "", "note", "pending", "medium", none, none, none, "alice"⟩ rfl
    simpa using h

/-- C7: evaluating the teardown closure of subscribeToMessages when the
subscribe handshake never completed (no status callback fired, so
isSubscribed stayed false) does NOT remove the live channel — the source
guards removeChannel behind isSubscribed, while an unconditional removal
(or a completed handshake) would empty the live set. -/
theorem teardown_not_unconditional :
    subscribeTeardown none ["chat-messages-42"] "chat-messages-42" = ["chat-messages-42"] ∧
    removeChannel ["chat-messages-42"] "chat-messages-42" = [] ∧
    subscribeTeardown (some "SUBSCRIBED") ["chat-messages-42"] "chat-messages-42" = [] :=
  ⟨rfl, by decide, by decide⟩

/-- C8 counterexample: connected-mode createChannel places the created
channel at the tail of the cache, behind the existing entry, not at the
head; demo-mode createChannel does not insert it at all. -/
theorem createChannel_appends_not_prepends :
    (createChannelConnected (.ok ⟨"c2", "dev", none, "public"⟩)
        [(⟨"c1", "general", none, "public"⟩ : ChatChannel)]).2 =
      [⟨"c1", "general", none, "public"⟩, ⟨"c2", "dev", none, "public"⟩] ∧
    (createChannelConnected (.ok ⟨"c2", "dev", none, "public"⟩)
        [(⟨"c1", "general", none, "public"⟩ : ChatChannel)]).2 ≠
      ⟨"c2", "dev", none, "public"⟩ :: [(⟨"c1", "general", none, "public"⟩ : ChatChannel)] ∧
    (createChannelDemo [(⟨"c1", "general", none, "public"⟩ : ChatChannel)]).2 =
      [⟨"c1", "general", none, "public"⟩] :=
  ⟨by decide, by decide, rfl⟩

/-- C8 amended: on success the notes store (demo and connected) and the
personal-notes store (demo and connected) prepend the created entity with
the rest of the cache unchanged, and the personal-notes store returns the
created entity; the chat store appends the created channel at the tail in
connected mode and leaves the cache unchanged in demo mode. -/
theorem create_insertion_per_store (note : NotePartial) (gid : String)
    (cache : List Note) (data : Note) (r : Except String Unit)
    (title content gid2 : String) (pnotes : List PersonalNote)
    (pdata : PersonalNote) (channels : List ChatChannel) (ch : ChatChannel) :
    createNoteDemo note gid cache = (none, mkDemoNote note gid :: cache) ∧
    (createNoteConnected note cache (.ok data) r).1 = none ∧
    (createNoteConnected note cache (.ok data) r).2.1 = data :: cache ∧
    personalCreateDemo title content gid2 pnotes =
      (none, some ⟨gid2, title, content, "demo-user"⟩,
        (⟨gid2, title, content, "demo-user"⟩ : PersonalNote) :: pnotes) ∧
    personalCreateConnected (.ok pdata) pnotes = (none, some pdata, pdata :: pnotes) ∧
    createChannelConnected (.ok ch) channels = (none, channels ++ [ch]) ∧
    createChannelDemo channels = (none, channels) :=
  ⟨rfl, rfl, rfl, rfl, rfl, rfl, rfl⟩

/-- C9 counterexample: the Expenses filter with dateFilter month reads the
current clock, so the same cache and the same filter state give different
result sets when the two evaluations observe dates in different months. -/
theorem expense_filter_reads_clock :
    filteredExpenses [(⟨"e1", "lunch", none, none, "pending", ⟨2026, 1, 15⟩, 10⟩ : Expense)]
        ⟨"", none, none, .month⟩ ⟨2026, 1, 31⟩ =
      [⟨"e1", "lunch", none, none, "pending", ⟨2026, 1, 15⟩, 10⟩] ∧
    filteredExpenses [(⟨"e1", "lunch", none, none, "pending", ⟨2026, 1, 15⟩, 10⟩ : Expense)]
        ⟨"", none, none, .month⟩ ⟨2026, 2, 1⟩ = [] ∧
    filteredExpenses [(⟨"e1", "lunch", none, none, "pending", ⟨2026, 1, 15⟩, 10⟩ : Expense)]
        ⟨"", none, none, .month⟩ ⟨2026, 1, 31⟩ ≠
      filteredExpenses [(⟨"e1", "lunch", none, none, "pending", ⟨2026, 1, 15⟩, 10⟩ : Expense)]
        ⟨"", none, none, .month⟩ ⟨2026, 2, 1⟩ :=
  ⟨by decide, by decide, by decide⟩

/-- C9 amended: the Expenses filter is a pure function of the cache, the
filter state and the observed current month — two evaluations on the same
(cache, filter) agree whenever they observe the same current month, and
unconditionally when dateFilter is not month; the global-search evaluation
is a pure function of the store caches and the query. -/
theorem filter_deterministic_in_observed_month (C : List Expense) (f : ExpenseFilter)
    (n n' : SimpleDate) (notes : List Note) (pnotes : List PersonalNote)
    (meetings : List Meeting) (members : List Member) (q : String) :
    (n.year = n'.year → n.month = n'.month →
      filteredExpenses C f n = filteredExpenses C f n') ∧
    (f.dateFilter ≠ .month → filteredExpenses C f n = filteredExpenses C f n') ∧
    performSearch notes pnotes meetings members q =
      performSearch notes pnotes meetings members q := by
  refine ⟨fun hy hm => ?_, fun hd => ?_, rfl⟩
  · have h1 : startOfMonth n = startOfMonth n' := by
      simp [startOfMonth, hy, hm]
    have h2 : endOfMonth n = endOfMonth n' := by
      simp [endOfMonth, hy, hm]
    unfold filteredExpenses
    congr 1
    funext e
    simp only [expenseKeep, h1, h2]
  · unfold filteredExpenses
    congr 1
    funext e
    cases hf : f.dateFilter with
    | month => exact absurd hf hd
    | all => simp [expenseKeep, hf]
    | custom => simp [expenseKeep, hf]

/-- C9 amended witness: two concrete evaluations in the same month agree,
and with dateFilter all the observed date is irrelevant. -/
theorem filter_deterministic_witness :
    filteredExpenses [(⟨"e1", "lunch", none, none, "pending", ⟨2026, 1, 15⟩, 10⟩ : Expense)]
        ⟨"", none, none, .month⟩ ⟨2026, 1, 5⟩ =
      filteredExpenses [(⟨"e1", "lunch", none, none, "pending", ⟨2026, 1, 15⟩, 10⟩ : Expense)]
        ⟨"", none, none, .month⟩ ⟨2026, 1, 20⟩ ∧
    filteredExpenses [] ⟨"", none, none, .all⟩ ⟨2026, 1, 5⟩ =
      filteredExpenses [] ⟨"", none, none, .all⟩ ⟨2027, 6, 6⟩ :=
  ⟨(filter_deterministic_in_observed_month _ _ _ _ [] [] [] [] "").1 rfl rfl,
   (filter_deterministic_in_observed_month _ _ _ _ [] [] [] [] "").2.1 (by decide)⟩

/-- C10: getShares is total (it never raises) and returns the share rows on
success and the empty list on every failure path — backend not configured,
gateway rejection, or a null data payload. -/
theorem getShares_never_raises (e : String) (l : List PersonalNoteShare)
    (o : Except String (Option (List PersonalNoteShare))) :
    getShares false o = [] ∧
    getShares true (.error e) = [] ∧
    getShares true (.ok none) = [] ∧
    getShares true (.ok (some l)) = l :=
  ⟨rfl, rfl, rfl, rfl⟩

end NotionK4S
